import Mathlib

/-!
Verification of the gws_ai_toolkit repository against its specification.

The repository ships two React example applications
(src/gws_ai_toolkit/apps/rag_example.jsx and
src/gws_ai_toolkit/apps/ai_table_standalone_app/example.jsx); the pure parts of
their state-update logic are embedded below as Lean functions.  The RAG service
layer described by the specification (uploadDocumentAndParse, deleteDocument,
retrieveChunks, chatStream, document statuses) is not part of the shipped
sources, so those operations are modelled from the specification text; each such
definition is marked `Modelled from the spec:` in its doc comment.
-/

namespace GwsAiToolkit

/- ===== JavaScript string primitives used by the embedded code ===== -/

/-- Embeds JavaScript `String.prototype.toLowerCase()` (ASCII letters, which is
all the embedded data uses): lowercases every character. -/
def jsToLower (s : String) : String := String.mk (s.data.map Char.toLower)

/-- Embeds JavaScript `String.prototype.trim()`: removes whitespace from both
ends of the string (whitespace per `Char.isWhitespace`, which covers the
characters occurring in the embedded code). -/
def jsTrim (s : String) : String :=
  String.mk (((s.data.dropWhile Char.isWhitespace).reverse.dropWhile Char.isWhitespace).reverse)

/-- Bool test that `need` is a leading segment of `hay` (character lists). -/
def charsLeading : List Char → List Char → Bool
  | [], _ => true
  | _ :: _, [] => false
  | a :: as, b :: bs => a == b && charsLeading as bs

/-- Bool test that `need` occurs contiguously inside `hay` (character lists). -/
def charsContains (need : List Char) : List Char → Bool
  | [] => need.isEmpty
  | c :: rest => charsLeading need (c :: rest) || charsContains need rest

/-- Embeds JavaScript `hay.includes(need)`: contiguous substring test. -/
def jsIncludes (hay need : String) : Bool := charsContains need.data hay.data

/- ===== RAG chat example app (src/src/gws_ai_toolkit/apps/rag_example.jsx) ===== -/

/-- One entry of the MOCK_SOURCES list of rag_example.jsx: a cited document with
its relevance score, which in the source is an integer percentage
(rendered as value% by RelevanceBadge). -/
structure Source where
  id : Nat
  name : String
  pages : String
  relevance : Nat
deriving DecidableEq, Repr

/-- The MOCK_SOURCES constant of rag_example.jsx, verbatim. -/
def MOCK_SOURCES : List Source :=
  [ ⟨1, "22718743.pdf", "p. 12-14", 94⟩,
    ⟨2, "22291054.pdf", "p. 3-5", 87⟩,
    ⟨3, "20819283.pdf", "p. 21", 76⟩,
    ⟨4, "22291053.pdf", "p. 8-9", 71⟩,
    ⟨5, "22291061.pdf", "p. 1-2", 65⟩ ]

/-- Message role, as the role string field of the jsx message objects. -/
inductive Role
  | user
  | assistant
deriving DecidableEq, Repr

/-- A chat message of rag_example.jsx: role, content, and an optional attached
source list (only assistant messages carry sources). -/
structure ChatMessage where
  role : Role
  content : String
  sources : Option (List Source) := none
deriving DecidableEq, Repr

/-- The MOCK_MESSAGES constant of rag_example.jsx (initial conversation). -/
def MOCK_MESSAGES : List ChatMessage :=
  [ ⟨Role.user, "What is chromatography?", none⟩,
    ⟨Role.assistant,
      "Chromatography is a laboratory technique used for the separation of mixtures into their individual components based on differences in how they interact with a stationary phase and a mobile phase.\n\nIn chromatography, the mixture to be separated is dissolved in a fluid (the mobile phase), which carries it through a structure holding another material (the stationary phase). The various components of the mixture move at different speeds, causing them to separate as they flow through or over the stationary phase.\n\nThere are several types of chromatography, including high-performance liquid chromatography (HPLC), gas chromatography (GC), ion chromatography, and capillary electrophoresis. Each type uses different mechanisms and phases but relies on the same fundamental principle of differential partitioning between phases to achieve separation.",
      some MOCK_SOURCES⟩ ]

/-- The fixed assistant answer text appended by handleSend of rag_example.jsx. -/
def assistantResponseText : String :=
  "Based on the documents in your knowledge base, I found several relevant passages addressing your question. Let me synthesize the key findings for you.\n\nThe available literature describes multiple analytical approaches that have been validated for this type of analysis. The most commonly referenced methods involve chromatographic separation followed by mass spectrometric detection."

/-- The assistant message appended by the delayed (setTimeout) part of
handleSend in rag_example.jsx: fixed text plus MOCK_SOURCES.slice(0, 3). -/
def assistantReply : ChatMessage :=
  ⟨Role.assistant, assistantResponseText, some (MOCK_SOURCES.take 3)⟩

/-- The state handled by RAGChatApp of rag_example.jsx that handleSend touches:
the messages list, the input box content, and the showEmpty flag. -/
structure RagChatState where
  messages : List ChatMessage
  input : String
  showEmpty : Bool
deriving DecidableEq, Repr

/-- The synchronous part of handleSend of rag_example.jsx: if the trimmed input
is empty it returns early (no state change, no error); otherwise it appends one
user message carrying the trimmed input, clears the input and hides the empty
state. -/
def handleSendUserStep (s : RagChatState) : RagChatState :=
  if jsTrim s.input = "" then s
  else { messages := s.messages ++ [⟨Role.user, jsTrim s.input, none⟩],
         input := "", showEmpty := false }

/-- The delayed (setTimeout) part of handleSend of rag_example.jsx: appends one
assistant message with the fixed answer text and MOCK_SOURCES.slice(0, 3). -/
def handleSendTimeoutStep (s : RagChatState) : RagChatState :=
  { s with messages := s.messages ++ [assistantReply] }

/-- One complete handleSend turn of rag_example.jsx: the early return on
blank-after-trim input, else the user-append step followed by the delayed
assistant-append step (the timeout only fires when it was scheduled, i.e. in
the non-blank branch). -/
def handleSend (s : RagChatState) : RagChatState :=
  if jsTrim s.input = "" then s
  else handleSendTimeoutStep (handleSendUserStep s)

/- ===== AI table example app
   (src/src/gws_ai_toolkit/apps/ai_table_standalone_app/example.jsx) ===== -/

/-- The IRIS constant of example.jsx.  Each table cell is embedded by its
JavaScript String() rendering, which is what the search filter of the app
operates on: the numeric literals render as their shortest decimal form, so
whole-number cells such as 3.0 or 5.0 render as 3 and 5. -/
def IRIS : List (List String) :=
  [ ["5.1", "3.5", "1.4", "0.2", "Setosa"], ["4.9", "3", "1.4", "0.2", "Setosa"],
    ["4.7", "3.2", "1.3", "0.2", "Setosa"], ["4.6", "3.1", "1.5", "0.2", "Setosa"],
    ["5", "3.6", "1.4", "0.2", "Setosa"], ["5.4", "3.9", "1.7", "0.4", "Setosa"],
    ["4.6", "3.4", "1.4", "0.3", "Setosa"], ["5", "3.4", "1.5", "0.2", "Setosa"],
    ["4.4", "2.9", "1.4", "0.2", "Setosa"], ["4.9", "3.1", "1.5", "0.1", "Setosa"],
    ["6.3", "3.3", "6", "2.5", "Virginica"], ["5.8", "2.7", "5.1", "1.9", "Virginica"],
    ["7.1", "3", "5.9", "2.1", "Virginica"], ["6.3", "2.9", "5.6", "1.8", "Virginica"],
    ["5.7", "2.5", "5", "2", "Versicolor"], ["5.8", "2.8", "5.1", "2.4", "Versicolor"],
    ["6.4", "3.2", "5.3", "2.3", "Versicolor"], ["6.5", "3", "5.5", "1.8", "Versicolor"] ]

/-- The row filter of example.jsx, verbatim from its source:
IRIS.filter(r => r.some(c => String(c).toLowerCase().includes(search.toLowerCase()))). -/
def filtered (search : String) : List (List String) :=
  IRIS.filter (fun r => r.any (fun c => jsIncludes (jsToLower c) (jsToLower search)))

/-- Spec-side reformulation of the filter for the refinement claim C10, written
from the claim text: the subsequence of IRIS rows, in original order, having at
least one cell whose string form contains the search string
case-insensitively. -/
def filteredSpec (search : String) : List (List String) :=
  IRIS.filter (fun r => decide (∃ c ∈ r, jsIncludes (jsToLower c) (jsToLower search) = true))

/-- One entry of the TABLES constant of example.jsx. -/
structure TableInfo where
  id : String
  label : String
  sheets : List String
deriving DecidableEq, Repr

/-- First entry of the TABLES constant of example.jsx. -/
def irisTable : TableInfo := ⟨"iris_3", "irisgood_3", ["Sheet1"]⟩

/-- Second entry of the TABLES constant of example.jsx. -/
def salesTable : TableInfo := ⟨"sales_q1", "sales_Q1.xlsx", ["Jan", "Feb", "Mar"]⟩

/-- Third entry of the TABLES constant of example.jsx. -/
def inventoryTable : TableInfo := ⟨"inventory", "inventory_2024.xlsx", ["Electronics", "Clothing"]⟩

/-- The TABLES constant of example.jsx, verbatim. -/
def TABLES : List TableInfo := [irisTable, salesTable, inventoryTable]

/-- The table-selection state of App in example.jsx touched by switchTable:
active table, active sheet (t.sheets[0] in JavaScript is undefined on an empty
sheet list, embedded as Option), the two dropdown-open flags, and the search
string, which switchTable leaves untouched. -/
structure TableUiState where
  activeTable : TableInfo
  activeSheet : Option String
  tableDropOpen : Bool
  sheetDropOpen : Bool
  search : String
deriving DecidableEq, Repr

/-- The switchTable handler of example.jsx: sets the active table, resets the
active sheet to the first sheet of the new table, and closes both dropdowns. -/
def switchTable (t : TableInfo) (s : TableUiState) : TableUiState :=
  { s with activeTable := t, activeSheet := t.sheets.head?,
           tableDropOpen := false, sheetDropOpen := false }

/-- The initial table-selection state of App in example.jsx, from its useState
initializers: TABLES[0] active, its first sheet active, both dropdowns closed,
empty search string. -/
def initialTableUiState : TableUiState :=
  ⟨irisTable, irisTable.sheets.head?, false, false, ""⟩

/-- The togglePanel handler of example.jsx:
setPanel(prev => prev === p ? null : p).  The panel state is null, chat or
stats in the running app; it is embedded as Option String exactly as the
JavaScript value space. -/
def togglePanel (p : String) (panel : Option String) : Option String :=
  if panel = some p then none else some p

/-- The events that update the panel state in example.jsx: the two toggle
buttons (togglePanel with chat or stats) and the panel close buttons
(setPanel(null)). -/
inductive PanelEvent
  | toggleChat
  | toggleStats
  | closePanel
deriving DecidableEq, Repr

/-- One panel-state transition of example.jsx. -/
def panelStep (panel : Option String) : PanelEvent → Option String
  | PanelEvent.toggleChat => togglePanel "chat" panel
  | PanelEvent.toggleStats => togglePanel "stats" panel
  | PanelEvent.closePanel => none

/-- The panel state reached from the initial state (useState(null)) after a
sequence of panel events. -/
def runPanel (es : List PanelEvent) : Option String :=
  es.foldl panelStep none

/-- A chat message of example.jsx (role and text). -/
structure TableChatMessage where
  role : Role
  text : String
deriving DecidableEq, Repr

/-- The fixed assistant reply appended by the delayed part of sendMsg of
example.jsx. -/
def demoReplyText : String :=
  "Great question! Let me analyze that for you… (demo mode)"

/-- The chat state of App in example.jsx touched by sendMsg. -/
structure TableChatState where
  messages : List TableChatMessage
  chatInput : String
deriving DecidableEq, Repr

/-- The synchronous part of sendMsg of example.jsx: if the trimmed input is
empty it returns early (no state change, no error); otherwise it appends one
user message carrying the raw (untrimmed) input and clears the input. -/
def sendMsgUserStep (t : TableChatState) : TableChatState :=
  if jsTrim t.chatInput = "" then t
  else { messages := t.messages ++ [⟨Role.user, t.chatInput⟩], chatInput := "" }

/-- The delayed (setTimeout) part of sendMsg of example.jsx: appends one fixed
assistant message. -/
def sendMsgTimeoutStep (t : TableChatState) : TableChatState :=
  { t with messages := t.messages ++ [⟨Role.assistant, demoReplyText⟩] }

/-- One complete sendMsg turn of example.jsx: early return on blank-after-trim
input, else the user-append step followed by the delayed assistant-append step. -/
def sendMsg (t : TableChatState) : TableChatState :=
  if jsTrim t.chatInput = "" then t
  else sendMsgTimeoutStep (sendMsgUserStep t)

/- ===== RAG service layer, modelled from the specification =====
The service layer (shared data model, service interface, adapters, streaming
coordinator) described by the spec is not among the shipped sources; the
definitions below are therefore modelled from the specification text. -/

/-- Modelled from the spec: the error taxonomy returned by all service
operations (spec section 4.1). -/
inductive RagError
  | invalidInput
  | notFound
  | backendUnavailable
  | backendRejected
  | unsupportedMethod
deriving DecidableEq, Repr

/-- Modelled from the spec: the Document processing status enum
(pending, indexing, indexed, failed). -/
inductive DocStatus
  | pending
  | indexing
  | indexed
  | failed
deriving DecidableEq, Repr

/-- Modelled from the spec: the allowed status advances
pending to indexing, indexing to indexed or failed; nothing else. -/
def statusStep (a b : DocStatus) : Bool :=
  match a, b with
  | DocStatus.pending, DocStatus.indexing => true
  | DocStatus.indexing, DocStatus.indexed => true
  | DocStatus.indexing, DocStatus.failed => true
  | _, _ => false

/-- Position of a status along the lifecycle: a later status never maps below
an earlier one, so advancing the status never decreases the rank. -/
def statusRank : DocStatus → Nat
  | DocStatus.pending => 0
  | DocStatus.indexing => 1
  | DocStatus.indexed => 2
  | DocStatus.failed => 2

instance : IsTrans DocStatus (fun a b => statusRank a ≤ statusRank b) :=
  ⟨fun _ _ _ => Nat.le_trans⟩

/-- Modelled from the spec: the shared Document value type (identifier, display
name, processing status, byte size). -/
structure RagDocument where
  id : String
  name : String
  status : DocStatus
  size : Nat
deriving DecidableEq, Repr

/-- Modelled from the spec: the shared Chunk value type.  The relevance score
is the spec normalized float rescaled into 0.0 to 1.0; it is embedded as a
rational number. -/
structure RagChunk where
  id : String
  documentId : String
  content : String
  score : ℚ
deriving DecidableEq, Repr

/-- Descending-relevance comparison between chunks: a precedes b when the score
of a is at least the score of b. -/
def chunkGE (a b : RagChunk) : Prop := b.score ≤ a.score

instance : DecidableRel chunkGE := fun a b => inferInstanceAs (Decidable (b.score ≤ a.score))

instance : IsTotal RagChunk chunkGE := ⟨fun a b => le_total b.score a.score⟩

instance : IsTrans RagChunk chunkGE := ⟨fun _ _ _ hab hbc => le_trans hbc hab⟩

/-- Modelled from the spec: retrieveChunks, absent from the shipped sources.
Per spec sections 4.1 and 3 it returns the candidate chunks sorted descending
by relevance score, truncated to at most topK results. -/
def retrieveChunks (candidates : List RagChunk) (topK : Nat) : List RagChunk :=
  (List.insertionSort chunkGE candidates).take topK

/-- Modelled from the spec: uploadDocumentAndParse, absent from the shipped
sources.  Per spec section 4.1 it fails with InvalidInput if fileContent is
empty or fileName is blank; otherwise it registers a document whose status is
pending at the instant of creation (indexing is asynchronous). -/
def uploadDocumentAndParse (knowledgeBaseId fileContent fileName : String) :
    Except RagError RagDocument :=
  if fileContent = "" ∨ jsTrim fileName = "" then Except.error RagError.invalidInput
  else Except.ok ⟨knowledgeBaseId ++ "/" ++ fileName, fileName, DocStatus.pending,
                  fileContent.length⟩

/-- Modelled from the spec: deleteDocument, absent from the shipped sources,
acting on a knowledge base represented by its list of document identifiers.
Per spec section 4.1 and Scenario D it removes the document when present; on an
absent identifier it fails with NotFound only in strict mode and otherwise
succeeds silently. -/
def deleteDocument (strict : Bool) (documentId : String) (kb : List String) :
    Except RagError (List String) :=
  if kb.contains documentId then Except.ok (kb.filter (fun d => d != documentId))
  else if strict then Except.error RagError.notFound
  else Except.ok kb

/-- Modelled from the spec: the payload of one Chat Stream Response Fragment
(token text, citation chunk list, error description, or the terminal marker). -/
inductive FragmentData
  | token (text : String)
  | citation (chunks : List RagChunk)
  | error (message : String)
  | done
deriving DecidableEq, Repr

/-- Modelled from the spec: one Chat Stream Response Fragment, carrying its
monotonic sequence index (starting at 0 per turn) and its payload. -/
structure Fragment where
  seqIndex : Nat
  data : FragmentData
deriving DecidableEq, Repr

/-- Bool test for the terminal done payload. -/
def isDoneData : FragmentData → Bool
  | FragmentData.done => true
  | _ => false

/-- Bool test for the terminal done fragment. -/
def Fragment.isDone (f : Fragment) : Bool := isDoneData f.data

/-- Attaches consecutive sequence indices, starting at i, to a list of
fragment payloads. -/
def indexFrom (i : Nat) : List FragmentData → List Fragment
  | [] => []
  | d :: ds => ⟨i, d⟩ :: indexFrom (i + 1) ds

/-- The optional citation part of a turn: one citation fragment payload when
the backend emitted citations, nothing otherwise. -/
def citePart : Option (List RagChunk) → List FragmentData
  | some cs => [FragmentData.citation cs]
  | none => []

/-- Modelled from the spec: the fragment sequence of one successful chatStream
turn (spec Scenario C), zero-or-more token fragments, an optional citation
fragment, then exactly one terminal done fragment, indexed from 0. -/
def chatStreamTurn (tokens : List String) (cite : Option (List RagChunk)) :
    List Fragment :=
  indexFrom 0 (tokens.map FragmentData.token ++ citePart cite ++ [FragmentData.done])

/-- Modelled from the spec: one operation on a document may leave the
processing status unchanged or advance it along the allowed lifecycle steps. -/
def statusAdvance (a b : DocStatus) : Prop := a = b ∨ statusStep a b = true

instance : DecidableRel statusAdvance := fun a b =>
  inferInstanceAs (Decidable (a = b ∨ statusStep a b = true))

/- ===== Helper lemmas ===== -/

theorem indexFrom_append (l₁ l₂ : List FragmentData) :
    ∀ i, indexFrom i (l₁ ++ l₂) = indexFrom i l₁ ++ indexFrom (i + l₁.length) l₂ := by
  induction l₁ with
  | nil => intro i; simp [indexFrom]
  | cons d ds ih =>
      intro i
      simp only [List.cons_append, indexFrom, List.append_eq, List.length_cons, ih (i + 1)]
      have harith : i + 1 + ds.length = i + (ds.length + 1) := by omega
      rw [harith]

theorem mem_indexFrom_le {f : Fragment} :
    ∀ {i : Nat} {l : List FragmentData}, f ∈ indexFrom i l → i ≤ f.seqIndex := by
  intro i l
  induction l generalizing i with
  | nil => intro h; simp [indexFrom] at h
  | cons d ds ih =>
      intro h
      simp only [indexFrom, List.mem_cons] at h
      rcases h with h | h
      · subst h; exact Nat.le_refl _
      · exact Nat.le_of_succ_le (ih h)

theorem indexFrom_idx_pairwise (i : Nat) (l : List FragmentData) :
    ((indexFrom i l).map Fragment.seqIndex).Pairwise (· ≤ ·) := by
  induction l generalizing i with
  | nil => simp [indexFrom]
  | cons d ds ih =>
      simp only [indexFrom, List.map_cons, List.pairwise_cons]
      refine ⟨?_, ih (i + 1)⟩
      intro j hj
      simp only [List.mem_map] at hj
      obtain ⟨f, hf, rfl⟩ := hj
      exact Nat.le_of_succ_le (mem_indexFrom_le hf)

theorem countP_indexFrom (q : FragmentData → Bool) :
    ∀ (i : Nat) (l : List FragmentData),
      (indexFrom i l).countP (fun f => q f.data) = l.countP q := by
  intro i l
  induction l generalizing i with
  | nil => simp [indexFrom]
  | cons d ds ih => simp [indexFrom, List.countP_cons, ih]

theorem all_indexFrom (q : FragmentData → Bool) :
    ∀ (i : Nat) (l : List FragmentData),
      (indexFrom i l).all (fun f => q f.data) = l.all q := by
  intro i l
  induction l generalizing i with
  | nil => simp [indexFrom]
  | cons d ds ih => simp [indexFrom, ih]

theorem deleteDocument_nonstrict_isOk (documentId : String) (kb : List String) :
    (deleteDocument false documentId kb).isOk = true := by
  unfold deleteDocument
  split
  · rfl
  · rfl

theorem togglePanel_mem (p : String) (s : Option String) :
    togglePanel p s = none ∨ togglePanel p s = some p := by
  unfold togglePanel
  split
  · exact Or.inl rfl
  · exact Or.inr rfl

theorem panelStep_cases (s : Option String) (e : PanelEvent) :
    panelStep s e = none ∨ panelStep s e = some "chat" ∨ panelStep s e = some "stats" := by
  cases e with
  | toggleChat =>
      rcases togglePanel_mem "chat" s with h | h <;> simp [panelStep, h]
  | toggleStats =>
      rcases togglePanel_mem "stats" s with h | h <;> simp [panelStep, h]
  | closePanel => exact Or.inl rfl

theorem foldl_panel_mem :
    ∀ (es : List PanelEvent) (s : Option String),
      s = none ∨ s = some "chat" ∨ s = some "stats" →
      (es.foldl panelStep s = none ∨ es.foldl panelStep s = some "chat" ∨
        es.foldl panelStep s = some "stats") := by
  intro es
  induction es with
  | nil => intro s hs; simpa using hs
  | cons e es ih =>
      intro s _
      simp only [List.foldl_cons]
      exact ih (panelStep s e) (panelStep_cases s e)

theorem statusStep_rank_mono :
    ∀ a b, statusStep a b = true → statusRank a ≤ statusRank b := by
  intro a b
  cases a <;> cases b <;> decide

/- ===== Claim theorems ===== -/

/-- C1: For every retrieval call with topK = N the returned chunk sequence has
length at most N and is sorted in descending relevance order (retrieveChunks is
modelled from the spec, being absent from the shipped sources); and the source
list the code attaches to assistant messages, MOCK_SOURCES and its 3-element
prefix, is descending by relevance. -/
theorem retrieval_topk_sorted_desc (candidates : List RagChunk) (topK : Nat) :
    (retrieveChunks candidates topK).length ≤ topK ∧
    (retrieveChunks candidates topK).Sorted chunkGE ∧
    MOCK_SOURCES.Pairwise (fun a b => b.relevance ≤ a.relevance) ∧
    (MOCK_SOURCES.take 3).Pairwise (fun a b => b.relevance ≤ a.relevance) ∧
    (MOCK_SOURCES.take 3).length ≤ 3 := by
  refine ⟨ List.length_take_le _ _, ?_, by decide, by decide, by decide⟩
  exact List.Pairwise.sublist (List.take_sublist _ _)
    (List.sorted_insertionSort chunkGE candidates)

/-- C2 counterexample: the claim says every relevance score carried by the
source lists attached to assistant messages lies in the closed interval
0.0 to 1.0; in the code the scores are integer percentages (94, 87, 76, 71,
65, rendered as value% by RelevanceBadge), so the very first source of the
assistant message of MOCK_MESSAGES already violates the bound. -/
theorem relevance_scores_not_unit_interval :
    ¬ (MOCK_MESSAGES.all
        (fun m => (m.sources.getD []).all (fun s => s.relevance ≤ 1)) = true) := by
  decide

/-- C2 amended: every relevance score carried by the source lists attached to
assistant messages (the initial MOCK_MESSAGES conversation, the reply appended
by handleSend, and MOCK_SOURCES itself) lies in the percent range 0 to 100,
not in the unit interval claimed. -/
theorem relevance_scores_percent_scale :
    MOCK_MESSAGES.all
      (fun m => (m.sources.getD []).all (fun s => s.relevance ≤ 100)) = true ∧
    (assistantReply.sources.getD []).all (fun s => s.relevance ≤ 100) = true ∧
    MOCK_SOURCES.all (fun s => s.relevance ≤ 100) = true := by
  decide

/-- C3: every chat turn delivers its fragments in non-decreasing sequence
order as zero-or-more token fragments, an optional citation fragment and
exactly one terminal done fragment with nothing after it (chatStreamTurn is
modelled from the spec, being absent from the shipped sources); and in the
code one handleSend turn appends exactly one user message followed by exactly
one assistant reply, with nothing after it (on blank-after-trim input nothing
is appended at all). -/
theorem chat_turn_single_terminated (tokens : List String)
    (cite : Option (List RagChunk)) (s : RagChatState) :
    ((chatStreamTurn tokens cite).map Fragment.seqIndex).Pairwise (· ≤ ·) ∧
    (chatStreamTurn tokens cite).countP Fragment.isDone = 1 ∧
    ((chatStreamTurn tokens cite).getLast?).map Fragment.data = some FragmentData.done ∧
    (chatStreamTurn tokens cite).dropLast.all (fun f => ! Fragment.isDone f) = true ∧
    (handleSend s).messages =
      (if jsTrim s.input = "" then s.messages
       else s.messages ++ [⟨Role.user, jsTrim s.input, none⟩, assistantReply]) ∧
    assistantReply.role = Role.assistant := by
  have hsplit : chatStreamTurn tokens cite =
      indexFrom 0 (tokens.map FragmentData.token ++ citePart cite) ++
        [⟨(tokens.map FragmentData.token ++ citePart cite).length, FragmentData.done⟩] := by
    unfold chatStreamTurn
    rw [indexFrom_append]
    simp [indexFrom]
  refine ⟨indexFrom_idx_pairwise 0 _, ?_, ?_, ?_, ?_, rfl⟩
  · show (chatStreamTurn tokens cite).countP (fun f => isDoneData f.data) = 1
    unfold chatStreamTurn
    rw [countP_indexFrom]
    cases cite <;>
      simp [citePart, isDoneData, List.countP_append, List.countP_map, Function.comp,
        List.countP_cons]
  · rw [hsplit, List.getLast?_concat]
    rfl
  · rw [hsplit, List.dropLast_concat]
    refine Eq.trans (all_indexFrom (fun d => ! isDoneData d) 0 _) ?_
    cases cite <;>
      simp [citePart, isDoneData, List.all_append, List.all_map, Function.comp]
  · by_cases hb : jsTrim s.input = ""
    · simp [handleSend, hb]
    · simp [handleSend, handleSendUserStep, handleSendTimeoutStep, hb]

/-- C4 counterexample: the claim says that for every input whose trimmed form
is empty the send operation reports InvalidInput to the caller; but handleSend
and sendMsg have no error channel at all and return the state unchanged on
such input, a silent no-op, so at the concrete blank input below nothing is
reported. -/
theorem empty_input_silently_ignored :
    handleSend ⟨[], " ", true⟩ = ⟨[], " ", true⟩ ∧
    sendMsg ⟨[], " "⟩ = ⟨[], " "⟩ := by
  constructor
  · show (if jsTrim " " = "" then _ else _) = _
    rw [if_pos (by decide)]
  · show (if jsTrim " " = "" then _ else _) = _
    rw [if_pos (by decide)]

/-- C4 amended: for every input whose trimmed form is empty the in-repo send
operations (handleSend of rag_example.jsx and sendMsg of example.jsx) return
early leaving the state unchanged and signalling no error, while the
spec-modelled uploadDocumentAndParse is the operation that fails with
InvalidInput on empty fileContent or blank fileName. -/
theorem empty_input_silent_noop (s : RagChatState) (t : TableChatState)
    (h1 : jsTrim s.input = "") (h2 : jsTrim t.chatInput = "") :
    handleSend s = s ∧ sendMsg t = t ∧
    uploadDocumentAndParse "kb" "" "notes.txt" = Except.error RagError.invalidInput ∧
    uploadDocumentAndParse "kb" "content" " " = Except.error RagError.invalidInput := by
  refine ⟨?_, ?_, ?_, ?_⟩
  · simp [handleSend, h1]
  · simp [sendMsg, h2]
  · rw [uploadDocumentAndParse, if_pos (Or.inl rfl)]
  · rw [uploadDocumentAndParse, if_pos (Or.inr (by decide))]

/-- Witness for the amended C4 at concrete blank inputs. -/
theorem empty_input_silent_noop_witness :
    jsTrim " " = "" ∧ jsTrim "" = "" ∧
    (handleSend ⟨[], " ", true⟩ = ⟨[], " ", true⟩ ∧
      sendMsg ⟨[], ""⟩ = ⟨[], ""⟩ ∧
      uploadDocumentAndParse "kb" "" "notes.txt" = Except.error RagError.invalidInput ∧
      uploadDocumentAndParse "kb" "content" " " = Except.error RagError.invalidInput) :=
  ⟨by decide, by decide,
    empty_input_silent_noop ⟨[], " ", true⟩ ⟨[], ""⟩ (by decide) (by decide)⟩

/-- C5: within one conversation turn no already-delivered message is reordered
or mutated: each state transition of the chat state performed by the send
handlers (the synchronous user-append step, the delayed assistant-append step,
and the composed turn, in both apps) only appends at the end of the message
list, leaving the existing list a prefix of the new one. -/
theorem chat_transitions_append_only (s : RagChatState) (t : TableChatState) :
    s.messages <+: (handleSendUserStep s).messages ∧
    s.messages <+: (handleSendTimeoutStep s).messages ∧
    s.messages <+: (handleSend s).messages ∧
    t.messages <+: (sendMsgUserStep t).messages ∧
    t.messages <+: (sendMsgTimeoutStep t).messages ∧
    t.messages <+: (sendMsg t).messages := by
  refine ⟨?_, ?_, ?_, ?_, ?_, ?_⟩
  · unfold handleSendUserStep
    split
    · exact List.prefix_rfl
    · exact List.prefix_append _ _
  · exact List.prefix_append _ _
  · unfold handleSend
    split
    · exact List.prefix_rfl
    · show s.messages <+: (handleSendUserStep s).messages ++ _
      refine List.IsPrefix.trans ?_ ( List.prefix_append _ _)
      unfold handleSendUserStep
      split
      · exact List.prefix_rfl
      · exact List.prefix_append _ _
  · unfold sendMsgUserStep
    split
    · exact List.prefix_rfl
    · exact List.prefix_append _ _
  · exact List.prefix_append _ _
  · unfold sendMsg
    split
    · exact List.prefix_rfl
    · show t.messages <+: (sendMsgUserStep t).messages ++ _
      refine List.IsPrefix.trans ?_ ( List.prefix_append _ _)
      unfold sendMsgUserStep
      split
      · exact List.prefix_rfl
      · exact List.prefix_append _ _

/-- C6: deleteDocument (modelled from the spec, being absent from the shipped
sources) is idempotent in non-strict mode: non-strict deletion always
succeeds, so a second call after any successful first call never fails; while
in strict mode deleting an absent identifier fails with NotFound. -/
theorem deleteDocument_modes (documentId : String) (kb : List String)
    (h : kb.contains documentId = false) :
    (∀ kb1 : List String, (deleteDocument false documentId kb1).isOk = true) ∧
    (∀ kb1 kb2 : List String, deleteDocument false documentId kb1 = Except.ok kb2 →
      (deleteDocument false documentId kb2).isOk = true) ∧
    deleteDocument true documentId kb = Except.error RagError.notFound := by
  refine ⟨fun kb1 => deleteDocument_nonstrict_isOk documentId kb1,
          fun kb1 kb2 _ => deleteDocument_nonstrict_isOk documentId kb2, ?_⟩
  have h' : ¬ (kb.contains documentId = true) := fun hc => by
    rw [h] at hc
    exact Bool.noConfusion hc
  unfold deleteDocument
  rw [if_neg h', if_pos rfl]

/-- Witness for C6 at the spec Scenario D input: deleting nonexistent-id from
a knowledge base that does not hold it. -/
theorem deleteDocument_modes_witness :
    (["doc-a"].contains "nonexistent-id") = false ∧
    ((∀ kb1 : List String, (deleteDocument false "nonexistent-id" kb1).isOk = true) ∧
      (∀ kb1 kb2 : List String,
        deleteDocument false "nonexistent-id" kb1 = Except.ok kb2 →
        (deleteDocument false "nonexistent-id" kb2).isOk = true) ∧
      deleteDocument true "nonexistent-id" ["doc-a"] = Except.error RagError.notFound) :=
  ⟨by decide, deleteDocument_modes "nonexistent-id" ["doc-a"] (by decide)⟩

/-- C7: the document processing status (modelled from the spec, being absent
from the shipped sources) only advances along
pending, indexing, indexed-or-failed: along any operation sequence whose
consecutive statuses either stay equal or take an allowed step, the status
rank never decreases; and a fresh upload returns a document whose status is
pending or indexing, never indexed. -/
theorem doc_status_never_regresses (l : List DocStatus)
    (h : List.Chain' statusAdvance l) (kb fc fn : String)
    (hc : fc ≠ "") (hn : jsTrim fn ≠ "") :
    (l.map statusRank).Pairwise (· ≤ ·) ∧
    (∃ d : RagDocument, uploadDocumentAndParse kb fc fn = Except.ok d ∧
      (d.status = DocStatus.pending ∨ d.status = DocStatus.indexing)) := by
  constructor
  · rw [List.pairwise_map, ← List.chain'_iff_pairwise]
    refine List.Chain'.imp ?_ h
    intro a b hab
    rcases (hab : a = b ∨ statusStep a b = true) with rfl | hstep
    · exact Nat.le_refl _
    · exact statusStep_rank_mono a b hstep
  · refine ⟨⟨kb ++ "/" ++ fn, fn, DocStatus.pending, fc.length⟩, ?_, Or.inl rfl⟩
    rw [uploadDocumentAndParse, if_neg]
    rintro (hfc | hfn)
    · exact hc hfc
    · exact hn hfn

/-- Witness for C7 on a full lifecycle trace and the spec Scenario A upload. -/
theorem doc_status_never_regresses_witness :
    List.Chain' statusAdvance [DocStatus.pending, DocStatus.indexing, DocStatus.indexed] ∧
    ("sample-content" ≠ "") ∧ (jsTrim "notes.txt" ≠ "") ∧
    ((([DocStatus.pending, DocStatus.indexing, DocStatus.indexed].map statusRank).Pairwise
        (· ≤ ·)) ∧
      (∃ d : RagDocument,
        uploadDocumentAndParse "kb" "sample-content" "notes.txt" = Except.ok d ∧
        (d.status = DocStatus.pending ∨ d.status = DocStatus.indexing))) :=
  ⟨by rw [List.chain'_cons, List.chain'_cons]
      exact ⟨Or.inr rfl, Or.inr rfl, List.chain'_singleton _⟩,
    by decide, by decide,
    doc_status_never_regresses _
      (by rw [List.chain'_cons, List.chain'_cons]
          exact ⟨Or.inr rfl, Or.inr rfl, List.chain'_singleton _⟩)
      "kb" "sample-content" "notes.txt" (by decide) (by decide)⟩

/-- C8 counterexample: the claim says applying togglePanel(p) twice returns
the panel state to its original value for every state; but starting from the
stats panel open, toggling chat twice ends at no panel open (stats, chat,
null), not back at stats. -/
theorem togglePanel_not_involutive :
    ¬ (togglePanel "chat" (togglePanel "chat" (some "stats")) = some "stats") := by
  decide

/-- C8 amended: togglePanel(p) twice restores the panel state whenever the
starting state is closed or already p (it fails only when the other panel was
open, where the double toggle closes everything); and exclusivity holds: every
state reachable from the initial closed state through the panel events of the
app is exactly one of null, chat, stats. -/
theorem togglePanel_involution_when_not_other (p : String) (panel : Option String)
    (h : panel = none ∨ panel = some p) :
    togglePanel p (togglePanel p panel) = panel ∧
    (∀ es : List PanelEvent,
      runPanel es = none ∨ runPanel es = some "chat" ∨ runPanel es = some "stats") := by
  constructor
  · rcases h with rfl | rfl
    · simp [togglePanel]
    · simp [togglePanel]
  · intro es
    exact foldl_panel_mem es none (Or.inl rfl)

/-- Witness for the amended C8 at the initial closed state toggling chat. -/
theorem togglePanel_involution_when_not_other_witness :
    ((none : Option String) = none ∨ (none : Option String) = some "chat") ∧
    (togglePanel "chat" (togglePanel "chat" none) = none ∧
      (∀ es : List PanelEvent,
        runPanel es = none ∨ runPanel es = some "chat" ∨ runPanel es = some "stats")) :=
  ⟨Or.inl rfl, togglePanel_involution_when_not_other "chat" none (Or.inl rfl)⟩

/-- C9: after switchTable(t) for a table with a non-empty sheet list, the
active table is t, the active sheet is the first sheet of t (hence a member of
the active table's sheet list), and both dropdown menus are closed. -/
theorem switchTable_selects_table_and_first_sheet (t : TableInfo) (s : TableUiState)
    (h : t.sheets ≠ []) :
    (switchTable t s).activeTable = t ∧
    (switchTable t s).activeSheet = some (t.sheets.head h) ∧
    (∃ sh, (switchTable t s).activeSheet = some sh ∧
      sh ∈ (switchTable t s).activeTable.sheets) ∧
    (switchTable t s).tableDropOpen = false ∧
    (switchTable t s).sheetDropOpen = false := by
  refine ⟨rfl, ?_, ⟨t.sheets.head h, ?_, ?_⟩, rfl, rfl⟩
  · exact List.head?_eq_head h
  · exact List.head?_eq_head h
  · exact List.head_mem h

/-- Witness for C9: switching to the multi-sheet sales table from the initial
state of the app. -/
theorem switchTable_selects_table_and_first_sheet_witness :
    salesTable.sheets ≠ [] ∧
    ((switchTable salesTable initialTableUiState).activeTable = salesTable ∧
      (switchTable salesTable initialTableUiState).activeSheet =
        some (salesTable.sheets.head (by decide)) ∧
      (∃ sh, (switchTable salesTable initialTableUiState).activeSheet = some sh ∧
        sh ∈ (switchTable salesTable initialTableUiState).activeTable.sheets) ∧
      (switchTable salesTable initialTableUiState).tableDropOpen = false ∧
      (switchTable salesTable initialTableUiState).sheetDropOpen = false) :=
  ⟨by decide,
    switchTable_selects_table_and_first_sheet salesTable initialTableUiState (by decide)⟩

/-- C10: the filtered row set equals exactly the subsequence of IRIS rows, in
original order, having at least one cell whose string form contains the search
string case-insensitively; the empty search yields all of IRIS, and the
filtered length never exceeds the length of IRIS. -/
theorem filtered_matches_search (search : String) :
    filtered search = filteredSpec search ∧
    filtered "" = IRIS ∧
    (filtered search).length ≤ IRIS.length := by
  refine ⟨?_, by decide, List.length_filter_le _ _⟩
  unfold filtered filteredSpec
  apply List.filter_congr
  intro r _
  by_cases hx : ∃ c ∈ r, jsIncludes (jsToLower c) (jsToLower search) = true
  · rw [decide_eq_true hx]
    exact List.any_eq_true.mpr hx
  · rw [decide_eq_false hx]
    exact Bool.eq_false_iff.mpr (fun hc => hx (List.any_eq_true.mp hc))

end GwsAiToolkit
